import Mathlib

/-!
Shallow embedding of the JobTrawler relevance scoring engine
(`src/job_matcher.py`, class `JobMatcher`) and proofs about it.

Strings are modelled as lists of characters; Python float arithmetic on the
tuned decimal constants is modelled exactly over the rationals; Python dicts
with `.get(key, '')` defaults are modelled as structures of optional fields.
-/

/-- Strings of the scoring engine: lists of characters. -/
abbrev Str := List Char

/-- Coerce a Lean string literal to the character-list representation. -/
def str (s : String) : Str := s.data

/-- Python `text.lower()` (ASCII model). -/
def lowerStr (s : Str) : Str := s.map Char.toLower

/-- Python substring containment `needle in haystack`. -/
def containsSub (needle : Str) : Str → Bool
  | [] => needle.isEmpty
  | c :: rest => needle.isPrefixOf (c :: rest) || containsSub needle rest

/-- Python `text.split()`: split on whitespace, dropping empty tokens
(auxiliary accumulator form). -/
def splitWsAux : Str → Str → List Str
  | [], acc => if acc.isEmpty then [] else [acc.reverse]
  | c :: t, acc =>
    if c.isWhitespace then
      if acc.isEmpty then splitWsAux t [] else acc.reverse :: splitWsAux t []
    else splitWsAux t (c :: acc)

/-- Python `text.split()`: split on whitespace, dropping empty tokens. -/
def splitWs (s : Str) : List Str := splitWsAux s []

/-- Skip a run of whitespace (regex `\s*`, greedy; the continuations that
follow it in the experience patterns never start with whitespace, so greedy
skipping is exact). -/
def dropWs (s : Str) : Str := s.dropWhile Char.isWhitespace

/-- Numeric value of a run of decimal digits (Python `int(match.group(1))`). -/
def natOfDigits (ds : Str) : Nat :=
  ds.foldl (fun n c => n * 10 + (c.toNat - '0'.toNat)) 0

/-- A job posting record: the four text fields the scoring engine reads,
each possibly absent (Python `job.get(field, '')`). -/
structure Job where
  title : Option Str
  company : Option Str
  snippet : Option Str
  full_description : Option Str

/-- `JobMatcher._extract_job_text`: space-join title, company, snippet and
full description (absent fields default to empty) and lower-case. -/
def extract_job_text (job : Job) : Str :=
  lowerStr (List.intercalate (str " ")
    [job.title.getD [], job.company.getD [], job.snippet.getD [],
     job.full_description.getD []])

/-- The matcher state built by `JobMatcher.__init__`: lower-cased CV skill
and keyword sets (sets modelled as deduplicated lists). -/
structure JobMatcher where
  cv_skills : List Str
  cv_keywords : List Str

/-- `JobMatcher.__init__`: lower-case every supplied skill and keyword
(set comprehension, so duplicates collapse). -/
def JobMatcher.init (skills keywords : List Str) : JobMatcher :=
  ⟨(skills.map lowerStr).dedup, (keywords.map lowerStr).dedup⟩

/-- The `variations` dictionary of `JobMatcher._fuzzy_match_skill`:
short-form/long-form spelling pairs, in source order. -/
def variations : List (Str × Str) :=
  [(str "js", str "javascript"),
   (str "k8s", str "kubernetes"),
   (str "kubernetes", str "k8s"),
   (str "ml", str "machine learning"),
   (str "ai", str "artificial intelligence"),
   (str "ad", str "active directory"),
   (str "azure ad", str "azure active directory"),
   (str "o365", str "office 365"),
   (str "office 365", str "o365"),
   (str "m365", str "microsoft 365"),
   (str "microsoft 365", str "m365"),
   (str "gcp", str "google cloud platform"),
   (str "google cloud", str "gcp"),
   (str "aws", str "amazon web services"),
   (str "node", str "node.js"),
   (str "nodejs", str "node.js"),
   (str "react", str "react.js"),
   (str "vue", str "vue.js"),
   (str "angular", str "angular.js"),
   (str "postgres", str "postgresql"),
   (str "mysql", str "mariadb"),
   (str "sql server", str "mssql"),
   (str "mssql", str "sql server"),
   (str "windows", str "windows server"),
   (str "linux", str "unix"),
   (str "unix", str "linux"),
   (str "ci/cd", str "continuous integration"),
   (str "devops", str "dev ops"),
   (str "itil", str "it service management"),
   (str "sccm", str "system center configuration manager"),
   (str "exchange", str "microsoft exchange"),
   (str "dns", str "domain name system"),
   (str "dhcp", str "dynamic host configuration protocol"),
   (str "vpn", str "virtual private network"),
   (str "mfa", str "multi-factor authentication"),
   (str "multi-factor authentication", str "mfa")]

/-- Regex `\w` (word character), ASCII model: letter, digit or underscore. -/
def isWordChar (c : Char) : Bool := c.isAlphanum || c == '_'

/-- Whether an optional character (text edge modelled as `none`) is a word
character. -/
def isWordOpt : Option Char → Bool
  | some c => isWordChar c
  | none => false

/-- Regex `\b` at position `p` of `t`: exactly one of the two surrounding
characters is a word character (the text edge counts as non-word). -/
def boundaryAt (t : Str) (p : Nat) : Bool :=
  isWordOpt (if p = 0 then none else t[p-1]?) != isWordOpt t[p]?

/-- `re.search(r'\b' + re.escape(skill) + r'\b', job_text)`: the escaped
skill occurs literally at some position with a word boundary on each side. -/
def wordBoundarySearch (skill text : Str) : Bool :=
  (List.range (text.length + 1)).any fun i =>
    skill.isPrefixOf (text.drop i) && boundaryAt text i &&
      boundaryAt text (i + skill.length)

/-- Length of the longest common prefix of two strings. -/
def commonPrefixLen : Str → Str → Nat
  | a :: as, b :: bs => if a = b then commonPrefixLen as bs + 1 else 0
  | _, _ => 0

/-- `difflib.SequenceMatcher.find_longest_match` over the whole strings
(no junk: the autojunk heuristic only engages for sequences of 200+
elements, far beyond any whitespace-delimited token): the longest common
block, returned as `(size, i, j)`, ties broken towards the earliest start
in `a`, then in `b`. -/
def findLongestMatch (a b : Str) : Nat × Nat × Nat :=
  (List.range a.length).foldl
    (fun best i =>
      (List.range b.length).foldl
        (fun best j =>
          let k := commonPrefixLen (a.drop i) (b.drop j)
          if k > best.1 then (k, i, j) else best)
        best)
    (0, 0, 0)

/-- Total size of the matching blocks of `difflib.SequenceMatcher`
(Ratcliff–Obershelp: take the longest match, recurse on both sides). The
fuel argument bounds the recursion depth; `a.length + b.length` always
suffices since every recursive call strictly shrinks the combined length. -/
def matchingBlocksSum : Nat → Str → Str → Nat
  | 0, _, _ => 0
  | fuel + 1, a, b =>
    let m := findLongestMatch a b
    if m.1 = 0 then 0
    else
      m.1 + matchingBlocksSum fuel (a.take m.2.1) (b.take m.2.2) +
        matchingBlocksSum fuel (a.drop (m.2.1 + m.1)) (b.drop (m.2.2 + m.1))

/-- `difflib.SequenceMatcher(None, a, b).ratio()`: twice the matched size
over the combined length (1 when both strings are empty). -/
def similarity (a b : Str) : ℚ :=
  if a.length + b.length = 0 then 1
  else 2 * (matchingBlocksSum (a.length + b.length) a b : ℚ) /
    ((a.length + b.length : Nat) : ℚ)

/-- `JobMatcher._fuzzy_match_skill`: the layered presence test — synonym
lookup both ways, all-words containment for multi-word skills, word-boundary
match, raw substring, token edit-distance similarity at the 0.75 threshold,
and the length-guarded token-containment fallback. Each layer short-circuits
the next on success, so the disjunction is the exact return value. -/
def fuzzy_match_skill (skill job_text : Str) (threshold : ℚ := 0.75) : Bool :=
  (match variations.lookup skill with
   | some v => containsSub v job_text
   | none => false) ||
  (variations.any fun kv => skill == kv.2 && containsSub kv.1 job_text) ||
  (let skill_words := splitWs skill
   decide (skill_words.length > 1) &&
     skill_words.all fun word => containsSub word job_text) ||
  wordBoundarySearch skill job_text ||
  containsSub skill job_text ||
  ((splitWs job_text).any fun word => threshold ≤ similarity skill word) ||
  ((splitWs job_text).any fun word =>
    (containsSub skill word || containsSub word skill) &&
      decide (skill.length ≥ 3) && decide (word.length ≥ 3))

/-- The `high_value_skills` constant of `JobMatcher._calculate_skill_match`. -/
def high_value_skills : List Str :=
  [str "aws", str "azure", str "gcp", str "google cloud", str "docker",
   str "kubernetes", str "k8s", str "terraform", str "ansible", str "python",
   str "java", str "javascript", str "typescript", str "react", str "node.js",
   str "devops", str "ci/cd", str "linux", str "windows server",
   str "active directory", str "azure ad", str "postgresql", str "mysql",
   str "mongodb", str "jenkins", str "git", str "agile", str "scrum",
   str "itil", str "servicenow", str "jira"]

/-- The hand-tuned staircase of `JobMatcher._calculate_skill_match` mapping
the matched-skill count to the base match score (its trailing `else` branch
covers `base_matches = 0`). -/
def staircase (base_matches : Nat) : ℚ :=
  if base_matches = 1 then 0.3
  else if base_matches = 2 then 0.5
  else if base_matches = 3 then 0.65
  else if base_matches ≥ 4 then
    0.75 + min 0.2 (((base_matches - 4 : Nat) : ℚ) * 0.05)
  else 0.0

/-- Tail of `JobMatcher._calculate_skill_match` once the matched-skill list
is known: the staircase over the match count plus the capped high-value
bonus, clamped to 1. -/
def skill_match_score (matched_skills : List Str) : ℚ :=
  let high_value_matches :=
    matched_skills.countP fun s => decide (s ∈ high_value_skills)
  let match_score := staircase matched_skills.length
  if high_value_matches > 0 then
    min 1.0 (match_score + min 0.15 ((high_value_matches : ℚ) * 0.05))
  else match_score

/-- `JobMatcher._calculate_skill_match`: collect the CV skills present in
the posting text (exactly or fuzzily) and score them. -/
def calculate_skill_match (m : JobMatcher) (job_text : Str) : ℚ × List Str :=
  if m.cv_skills.length = 0 then (0.0, [])
  else
    let matched_skills := m.cv_skills.filter fun s =>
      containsSub s job_text || fuzzy_match_skill s job_text
    if matched_skills.length = 0 then (0.0, [])
    else (skill_match_score matched_skills, matched_skills)

/-- `JobMatcher._calculate_keyword_match`: count CV keywords present as
plain substrings and map the count through the keyword staircase. -/
def calculate_keyword_match (m : JobMatcher) (job_text : Str) : ℚ :=
  if m.cv_keywords.isEmpty then 0.0
  else
    let matched_keywords := m.cv_keywords.countP fun kw => containsSub kw job_text
    if matched_keywords = 0 then 0.0
    else if matched_keywords = 1 then 0.3
    else if matched_keywords = 2 then 0.5
    else if matched_keywords ≥ 3 then
      0.7 + min 0.2 (((matched_keywords - 3 : Nat) : ℚ) * 0.05)
    else 0.0

/-- Regex `(?:experience|exp)` as a prefix of `t`. -/
def matchExpKeyword (t : Str) : Bool :=
  (str "experience").isPrefixOf t || (str "exp").isPrefixOf t

/-- Regex `(?:of\s*)?(?:experience|exp)` as a prefix of `t`, with the
optional-group backtracking of the regex engine. -/
def afterOfOptional (t : Str) : Bool :=
  ((str "of").isPrefixOf t && matchExpKeyword (dropWs (t.drop 2))) ||
    matchExpKeyword t

/-- Regex `(?:years?|yrs?)` as a prefix of `t`, each alternative continued
by `k` on the remaining text (alternation backtracking). -/
def matchYearsWord (t : Str) (k : Str → Bool) : Bool :=
  ((str "years").isPrefixOf t && k (t.drop 5)) ||
  ((str "year").isPrefixOf t && k (t.drop 4)) ||
  ((str "yrs").isPrefixOf t && k (t.drop 3)) ||
  ((str "yr").isPrefixOf t && k (t.drop 2))

/-- First experience pattern
`(\d+)[\+]?\s*(?:years?|yrs?)\s*(?:of\s*)?(?:experience|exp)` anchored at
the start of `t`; returns the captured number on success. The greedy digit
run is exact (shorter runs leave a digit where no later element can match),
and greedy `\s*` is exact since no continuation starts with whitespace. -/
def pat1At (t : Str) : Option Nat :=
  let ds := t.takeWhile Char.isDigit
  if ds.isEmpty then none
  else
    let rest := t.drop ds.length
    let cont := fun (u : Str) =>
      matchYearsWord (dropWs u) fun v => afterOfOptional (dropWs v)
    let ok := match rest with
      | '+' :: r2 => cont r2 || cont rest
      | _ => cont rest
    if ok then some (natOfDigits ds) else none

/-- Tail `\s*(\d+)\s*(?:years?|yrs?)` of the second experience pattern,
anchored at the start of `u`; returns the captured number. -/
def pat2Tail (u : Str) : Option Nat :=
  let u2 := dropWs u
  let ds := u2.takeWhile Char.isDigit
  if ds.isEmpty then none
  else if matchYearsWord (dropWs (u2.drop ds.length)) (fun _ => true) then
    some (natOfDigits ds)
  else none

/-- Second experience pattern
`(?:minimum|min|at least)\s*(\d+)\s*(?:years?|yrs?)` anchored at the start
of `t`, with alternation backtracking ("minimum" failing falls back to
"min"). -/
def pat2At (t : Str) : Option Nat :=
  match (if (str "minimum").isPrefixOf t then pat2Tail (t.drop 7) else none) with
  | some v => some v
  | none =>
    match (if (str "min").isPrefixOf t then pat2Tail (t.drop 3) else none) with
    | some v => some v
    | none => if (str "at least").isPrefixOf t then pat2Tail (t.drop 8) else none

/-- `re.search` for an anchored pattern: try every start position from the
left, first success wins. -/
def searchFirst (p : Str → Option Nat) : Str → Option Nat
  | [] => p []
  | c :: u =>
    match p (c :: u) with
    | some v => some v
    | none => searchFirst p u

/-- The required-years extraction of `JobMatcher._calculate_experience_match`:
search the first pattern over the whole text, then the second; no match
means a requirement of 0. -/
def requiredYearsOf (job_text : Str) : Nat :=
  match searchFirst pat1At job_text with
  | some v => v
  | none =>
    match searchFirst pat2At job_text with
    | some v => v
    | none => 0

/-- `JobMatcher._calculate_experience_match`: extract the required years
from the posting text and gate the candidate years against it. -/
def calculate_experience_match (job : Job) (cv_years : Nat) : ℚ :=
  let required_years := requiredYearsOf (extract_job_text job)
  if required_years = 0 then 1.0
  else if cv_years ≥ required_years then 1.0
  else if (cv_years : ℚ) ≥ (required_years : ℚ) * 0.7 then 0.7
  else 0.3

/-- The `title_bonus` computation of `JobMatcher.match_job`: capped
contributions for the CV skills and keywords found as substrings of the
lower-cased title (an empty title contributes nothing). -/
def title_bonus_calc (m : JobMatcher) (job_title : Str) : ℚ :=
  if job_title.isEmpty then 0.0
  else
    let title_skills := m.cv_skills.countP fun s => containsSub s job_title
    let title_keywords := m.cv_keywords.countP fun kw => containsSub kw job_title
    (if title_skills > 0 then min 0.3 ((title_skills : ℚ) * 0.1) else 0.0) +
      (if title_keywords > 0 then min 0.2 ((title_keywords : ℚ) * 0.08) else 0.0)

/-- The `skill_count_bonus` computation of `JobMatcher.match_job`. -/
def skill_count_bonus_calc (matched_skills : List Str) : ℚ :=
  if matched_skills.length ≥ 5 then 0.2
  else if matched_skills.length ≥ 3 then 0.15
  else if matched_skills.length ≥ 2 then 0.1
  else 0.0

/-- `JobMatcher.match_job`: the score combiner — weighted sum of the three
signals plus title, any-match and skill-count bonuses, clamp to 1, the
any-relevance floor of 0.2, and the strong-title extra boost. Returns the
score and the matched skills. -/
def match_job (m : JobMatcher) (job : Job) (cv_years : Nat) : ℚ × List Str :=
  let job_text := extract_job_text job
  let sm := calculate_skill_match m job_text
  let keyword_score := calculate_keyword_match m job_text
  let experience_score := calculate_experience_match job cv_years
  let title_bonus := title_bonus_calc m (lowerStr (job.title.getD []))
  let any_match_bonus : ℚ :=
    if sm.2.length > 0 ∨ 0 < keyword_score then 0.15 else 0.0
  let skill_count_bonus := skill_count_bonus_calc sm.2
  let base_score :=
    sm.1 * 0.6 + keyword_score * 0.2 + experience_score * 0.15
  let clamped :=
    min 1.0 (base_score + title_bonus + any_match_bonus + skill_count_bonus)
  let floored :=
    if sm.2.length > 0 ∨ 0 < keyword_score then max clamped 0.2
    else clamped
  let boosted :=
    if title_bonus > 0.2 ∧ sm.2.length ≥ 2 then min 1.0 (floored + 0.1)
    else floored
  (boosted, sm.2)

/-- A punctuation-or-whitespace character (ASCII model): whitespace or any
non-alphanumeric character. Used only by the spec-modelled normalizer. -/
def isPunctOrWs (c : Char) : Bool := c.isWhitespace || !c.isAlphanum

/-- Modelled from the spec: the Term Normalizer contract of §4.1,
"lower-cases, strips leading/trailing punctuation and whitespace". The code
of `JobMatcher.__init__` only lower-cases; this definition exists to compare
the spec's words against that code. -/
def normalizeSpec (t : Str) : Str :=
  (((lowerStr t).dropWhile isPunctOrWs).reverse.dropWhile isPunctOrWs).reverse

/-! ### Basic lemmas about the embedding -/

/-- The empty string is a substring of every text (Python `"" in text`). -/
theorem containsSub_nil_left (t : Str) : containsSub [] t = true := by
  cases t <;> rfl

/-- The staircase is nonnegative. -/
theorem staircase_nonneg (n : Nat) : 0 ≤ staircase n := by
  unfold staircase
  split
  · norm_num
  split
  · norm_num
  split
  · norm_num
  split
  · have h0 : (0 : ℚ) ≤ ((n - 4 : Nat) : ℚ) * 0.05 := by positivity
    have := le_min (by norm_num : (0:ℚ) ≤ 0.2) h0
    linarith
  · norm_num

/-- The staircase never exceeds 0.95. -/
theorem staircase_le (n : Nat) : staircase n ≤ 0.95 := by
  unfold staircase
  split
  · norm_num
  split
  · norm_num
  split
  · norm_num
  split
  · have := min_le_left (0.2 : ℚ) (((n - 4 : Nat) : ℚ) * 0.05)
    linarith
  · norm_num

/-- The staircase is monotone in the number of matches. -/
theorem staircase_mono : Monotone staircase := by
  apply monotone_nat_of_le_succ
  intro n
  match n with
  | 0 => norm_num [staircase]
  | 1 => norm_num [staircase]
  | 2 => norm_num [staircase]
  | 3 =>
    have h4 : staircase 4 = 0.75 + min 0.2 (((0 : Nat) : ℚ) * 0.05) := by
      norm_num [staircase]
    rw [show (3:Nat) + 1 = 4 from rfl, h4]
    norm_num [staircase]
  | (k + 4) =>
    unfold staircase
    rw [if_neg (by omega), if_neg (by omega), if_neg (by omega),
      if_pos (by omega), if_neg (by omega), if_neg (by omega),
      if_neg (by omega), if_pos (by omega)]
    have hstep : ((k + 4 - 4 : Nat) : ℚ) ≤ ((k + 4 + 1 - 4 : Nat) : ℚ) := by
      have : (k + 4 - 4 : Nat) ≤ (k + 4 + 1 - 4 : Nat) := by omega
      exact_mod_cast this
    have := min_le_min (le_refl (0.2 : ℚ))
      (mul_le_mul_of_nonneg_right hstep (by norm_num : (0:ℚ) ≤ 0.05))
    linarith

/-- Closed form of the skill staircase score: clamped sum of the staircase
and the high-value bonus (the clamp is vacuous when the bonus is zero,
since the staircase stays at or below 0.95). -/
theorem skill_match_score_eq (M : List Str) :
    skill_match_score M =
      min 1 (staircase M.length +
        min 0.15 ((M.countP fun s => decide (s ∈ high_value_skills) : ℚ) * 0.05)) := by
  unfold skill_match_score
  dsimp only
  split
  · norm_num
  · rename_i h
    have h0 : (M.countP fun s => decide (s ∈ high_value_skills)) = 0 := by omega
    have h1 : staircase M.length ≤ 1 :=
      le_trans (staircase_le _) (by norm_num)
    rw [h0, Nat.cast_zero, zero_mul,
      min_eq_right (by norm_num : (0:ℚ) ≤ 0.15), add_zero, min_eq_right h1]

/-- The skill staircase score is nonnegative. -/
theorem skill_match_score_nonneg (M : List Str) : 0 ≤ skill_match_score M := by
  rw [skill_match_score_eq]
  refine le_min (by norm_num) ?_
  have h1 := staircase_nonneg M.length
  have h2 : (0:ℚ) ≤ min 0.15 ((M.countP fun s => decide (s ∈ high_value_skills) : ℚ) * 0.05) :=
    le_min (by norm_num) (by positivity)
  linarith

/-- The skill staircase score is at most 1. -/
theorem skill_match_score_le_one (M : List Str) : skill_match_score M ≤ 1 := by
  rw [skill_match_score_eq]
  exact min_le_left _ _

/-- The skill-signal score component is nonnegative. -/
theorem calculate_skill_match_fst_nonneg (m : JobMatcher) (t : Str) :
    0 ≤ (calculate_skill_match m t).1 := by
  unfold calculate_skill_match
  dsimp only
  split
  · norm_num
  split
  · norm_num
  · exact skill_match_score_nonneg _

/-- The skill-signal score component is at most 1. -/
theorem calculate_skill_match_fst_le_one (m : JobMatcher) (t : Str) :
    (calculate_skill_match m t).1 ≤ 1 := by
  unfold calculate_skill_match
  dsimp only
  split
  · norm_num
  split
  · norm_num
  · exact skill_match_score_le_one _

/-- The keyword-signal score is nonnegative. -/
theorem calculate_keyword_match_nonneg (m : JobMatcher) (t : Str) :
    0 ≤ calculate_keyword_match m t := by
  unfold calculate_keyword_match
  dsimp only
  split
  · norm_num
  split
  · norm_num
  split
  · norm_num
  split
  · norm_num
  split
  · have h : (0:ℚ) ≤
        min 0.2 ((((m.cv_keywords.countP fun kw => containsSub kw t) - 3 : Nat) : ℚ) * 0.05) :=
      le_min (by norm_num) (by positivity)
    linarith
  · norm_num

/-- The experience-signal score is nonnegative. -/
theorem calculate_experience_match_nonneg (job : Job) (cv : Nat) :
    0 ≤ calculate_experience_match job cv := by
  unfold calculate_experience_match
  dsimp only
  split
  · norm_num
  split
  · norm_num
  split
  · norm_num
  · norm_num

/-- The experience-signal score is at most 1. -/
theorem calculate_experience_match_le_one (job : Job) (cv : Nat) :
    calculate_experience_match job cv ≤ 1 := by
  unfold calculate_experience_match
  dsimp only
  split
  · norm_num
  split
  · norm_num
  split
  · norm_num
  · norm_num

/-- The title bonus is nonnegative. -/
theorem title_bonus_calc_nonneg (m : JobMatcher) (jt : Str) :
    0 ≤ title_bonus_calc m jt := by
  unfold title_bonus_calc
  split
  · norm_num
  · dsimp only
    have h1 : (0:ℚ) ≤
        (if (m.cv_skills.countP fun s => containsSub s jt) > 0 then
          min 0.3 (((m.cv_skills.countP fun s => containsSub s jt) : ℚ) * 0.1)
        else 0.0) := by
      split
      · exact le_min (by norm_num) (by positivity)
      · norm_num
    have h2 : (0:ℚ) ≤
        (if (m.cv_keywords.countP fun kw => containsSub kw jt) > 0 then
          min 0.2 (((m.cv_keywords.countP fun kw => containsSub kw jt) : ℚ) * 0.08)
        else 0.0) := by
      split
      · exact le_min (by norm_num) (by positivity)
      · norm_num
    linarith

/-- The skill-count bonus is nonnegative. -/
theorem skill_count_bonus_calc_nonneg (M : List Str) :
    0 ≤ skill_count_bonus_calc M := by
  unfold skill_count_bonus_calc
  split
  · norm_num
  split
  · norm_num
  split
  · norm_num
  · norm_num

/-- The matched-skill list returned by the combiner is exactly the skill
signal's matched list. -/
theorem match_job_snd (m : JobMatcher) (job : Job) (cv : Nat) :
    (match_job m job cv).2 = (calculate_skill_match m (extract_job_text job)).2 :=
  rfl

/-- A CV skill that occurs verbatim in the posting text is collected into
the matched-skill list. -/
theorem exact_match_mem {m : JobMatcher} {t : Str} {s : Str}
    (hs : s ∈ m.cv_skills) (hc : containsSub s t = true) :
    s ∈ (calculate_skill_match m t).2 := by
  unfold calculate_skill_match
  dsimp only
  have hne : ¬ m.cv_skills.length = 0 := by
    intro h0
    rw [List.length_eq_zero] at h0
    rw [h0] at hs
    simp at hs
  rw [if_neg hne]
  have hmem : s ∈ m.cv_skills.filter fun x => containsSub x t || fuzzy_match_skill x t :=
    List.mem_filter.mpr ⟨hs, by rw [hc]; rfl⟩
  have hne2 : ¬ (m.cv_skills.filter fun x =>
      containsSub x t || fuzzy_match_skill x t).length = 0 := by
    intro h0
    rw [List.length_eq_zero] at h0
    rw [h0] at hmem
    simp at hmem
  rw [if_neg hne2]
  exact hmem

/-- Floor helper: when the matched list is non-empty or the keyword score
is positive, the combiner's result is at least 0.2. -/
theorem match_job_floor {m : JobMatcher} {job : Job} {cv : Nat}
    (h : (calculate_skill_match m (extract_job_text job)).2 ≠ [] ∨
      0 < calculate_keyword_match m (extract_job_text job)) :
    0.2 ≤ (match_job m job cv).1 := by
  unfold match_job
  dsimp only
  have hcond : (calculate_skill_match m (extract_job_text job)).2.length > 0 ∨
      0 < calculate_keyword_match m (extract_job_text job) := by
    rcases h with h | h
    · exact Or.inl (List.length_pos.mpr h)
    · exact Or.inr h
  simp only [if_pos hcond]
  split
  · refine le_min (by norm_num) ?_
    have h2 := le_max_right
      (min 1.0 ((calculate_skill_match m (extract_job_text job)).1 * 0.6 +
        calculate_keyword_match m (extract_job_text job) * 0.2 +
        calculate_experience_match job cv * 0.15 +
        title_bonus_calc m (lowerStr (job.title.getD [])) + 0.15 +
        skill_count_bonus_calc (calculate_skill_match m (extract_job_text job)).2))
      (0.2 : ℚ)
    linarith
  · exact le_max_right _ _

/-- Bounds for the clamp-floor-boost tail of the combiner, for any
nonnegative raw sum. -/
theorem clamp_floor_boost_bounds (x : ℚ) (c1 c2 : Prop) [Decidable c1]
    [Decidable c2] (hx : 0 ≤ x) :
    0 ≤ (if c2 then min 1.0 ((if c1 then max (min 1.0 x) 0.2 else min 1.0 x) + 0.1)
       else if c1 then max (min 1.0 x) 0.2 else min 1.0 x) ∧
      (if c2 then min 1.0 ((if c1 then max (min 1.0 x) 0.2 else min 1.0 x) + 0.1)
       else if c1 then max (min 1.0 x) 0.2 else min 1.0 x) ≤ 1 := by
  have hA0 : (0:ℚ) ≤ min 1.0 x := le_min (by norm_num) hx
  have hA1 : min (1.0:ℚ) x ≤ 1 := le_trans (min_le_left _ _) (by norm_num)
  have hB0 : (0:ℚ) ≤ (if c1 then max (min 1.0 x) 0.2 else min 1.0 x) := by
    split
    · exact le_trans hA0 (le_max_left _ _)
    · exact hA0
  have hB1 : (if c1 then max (min 1.0 x) 0.2 else min 1.0 x) ≤ 1 := by
    split
    · exact max_le hA1 (by norm_num)
    · exact hA1
  constructor
  · split
    · exact le_min (by norm_num) (by linarith)
    · exact hB0
  · split
    · exact le_trans (min_le_left _ _) (by norm_num)
    · exact hB1

/-- C1. For every candidate profile (any skill and keyword lists, including
empty, any experience years) and every posting (any optional string fields),
`match_job` is total by construction in this embedding and its score lies
in the closed interval from 0 to 1. -/
theorem spec_C1_match_job_score_bounded (m : JobMatcher) (job : Job) (cv : Nat) :
    0 ≤ (match_job m job cv).1 ∧ (match_job m job cv).1 ≤ 1 := by
  unfold match_job
  dsimp only
  refine clamp_floor_boost_bounds _ _ _ ?_
  have h1 := calculate_skill_match_fst_nonneg m (extract_job_text job)
  have h2 := calculate_keyword_match_nonneg m (extract_job_text job)
  have h3 := calculate_experience_match_nonneg job cv
  have h4 := title_bonus_calc_nonneg m (lowerStr (job.title.getD []))
  have h5 := skill_count_bonus_calc_nonneg
    (calculate_skill_match m (extract_job_text job)).2
  have h6 : (0:ℚ) ≤ (if (calculate_skill_match m (extract_job_text job)).2.length > 0 ∨
      0 < calculate_keyword_match m (extract_job_text job) then (0.15:ℚ) else 0.0) := by
    split <;> norm_num
  linarith

/-- Evaluation helper: the skill signal on a non-empty skill set with a
non-empty matched list returns the staircase score of the matched list. -/
theorem calculate_skill_match_eval {m : JobMatcher} {t : Str} {M : List Str}
    (h0 : m.cv_skills.length ≠ 0)
    (hf : (m.cv_skills.filter fun s => containsSub s t || fuzzy_match_skill s t) = M)
    (hM : M.length ≠ 0) :
    calculate_skill_match m t = (skill_match_score M, M) := by
  unfold calculate_skill_match
  dsimp only
  rw [if_neg h0, hf, if_neg hM]

/-- Evaluation helper: with no extractable requirement the experience
signal returns 1. -/
theorem calculate_experience_match_of_no_requirement {job : Job} {cv : Nat}
    (h : requiredYearsOf (extract_job_text job) = 0) :
    calculate_experience_match job cv = 1 := by
  unfold calculate_experience_match
  dsimp only
  rw [h]
  norm_num

/-- Evaluation helper: an empty keyword set yields keyword score 0. -/
theorem calculate_keyword_match_of_empty {m : JobMatcher} (h : m.cv_keywords = [])
    (t : Str) : calculate_keyword_match m t = 0 := by
  unfold calculate_keyword_match
  rw [h]
  norm_num

/-- Evaluation helper: an empty skill set yields skill score 0 and an empty
matched list. -/
theorem calculate_skill_match_of_empty {m : JobMatcher} (h : m.cv_skills = [])
    (t : Str) : calculate_skill_match m t = (0, []) := by
  unfold calculate_skill_match
  rw [h]
  norm_num

/-- Evaluation helper: the title bonus in terms of the two substring-hit
counts over a non-empty title. -/
theorem title_bonus_calc_eval {m : JobMatcher} {jt : Str} {a b : Nat}
    (h : jt.isEmpty = false)
    (ha : (m.cv_skills.countP fun s => containsSub s jt) = a)
    (hb : (m.cv_keywords.countP fun kw => containsSub kw jt) = b) :
    title_bonus_calc m jt =
      (if a > 0 then min 0.3 ((a : ℚ) * 0.1) else 0.0) +
        (if b > 0 then min 0.2 ((b : ℚ) * 0.08) else 0.0) := by
  unfold title_bonus_calc
  rw [h]
  dsimp only
  rw [ha, hb]
  norm_num

/-- Evaluation helper: with empty skill and keyword sets the title bonus
vanishes. -/
theorem title_bonus_calc_of_empty {m : JobMatcher} (hs : m.cv_skills = [])
    (hk : m.cv_keywords = []) (jt : Str) : title_bonus_calc m jt = 0 := by
  unfold title_bonus_calc
  split
  · norm_num
  · dsimp only
    rw [hs, hk]
    simp only [List.countP_nil]
    norm_num

/-- Evaluation helper: the combiner's value once the four signal components
are known. -/
theorem match_job_eval {m : JobMatcher} {job : Job} {cv : Nat} {sk kw ex tb : ℚ}
    {M : List Str}
    (hsm : calculate_skill_match m (extract_job_text job) = (sk, M))
    (hkw : calculate_keyword_match m (extract_job_text job) = kw)
    (hex : calculate_experience_match job cv = ex)
    (htb : title_bonus_calc m (lowerStr (job.title.getD [])) = tb) :
    match_job m job cv =
      ((if tb > 0.2 ∧ M.length ≥ 2 then
          min 1.0 ((if M.length > 0 ∨ 0 < kw then
            max (min 1.0 (sk * 0.6 + kw * 0.2 + ex * 0.15 + tb +
              (if M.length > 0 ∨ 0 < kw then 0.15 else 0.0) +
              skill_count_bonus_calc M)) 0.2
          else
            min 1.0 (sk * 0.6 + kw * 0.2 + ex * 0.15 + tb +
              (if M.length > 0 ∨ 0 < kw then 0.15 else 0.0) +
              skill_count_bonus_calc M)) + 0.1)
        else
          (if M.length > 0 ∨ 0 < kw then
            max (min 1.0 (sk * 0.6 + kw * 0.2 + ex * 0.15 + tb +
              (if M.length > 0 ∨ 0 < kw then 0.15 else 0.0) +
              skill_count_bonus_calc M)) 0.2
          else
            min 1.0 (sk * 0.6 + kw * 0.2 + ex * 0.15 + tb +
              (if M.length > 0 ∨ 0 < kw then 0.15 else 0.0) +
              skill_count_bonus_calc M))), M) := by
  unfold match_job
  dsimp only
  rw [hsm, hkw, hex, htb]

/-- Shared concrete evaluation: the spec's §8 concrete case actually scores
0.61 with matched skills ["python"]. -/
theorem match_job_python_dev :
    match_job (JobMatcher.init [str "python"] [])
      ⟨some (str "Python Developer"), some [], some [], some []⟩ 0 =
      (0.61, [str "python"]) := by
  have hsm : calculate_skill_match (JobMatcher.init [str "python"] [])
      (extract_job_text ⟨some (str "Python Developer"), some [], some [], some []⟩) =
      (skill_match_score [str "python"], [str "python"]) :=
    calculate_skill_match_eval (by decide) (by decide) (by decide)
  have hss : skill_match_score [str "python"] = 0.35 := by
    unfold skill_match_score
    dsimp only
    rw [show ([str "python"].countP fun s => decide (s ∈ high_value_skills)) = 1
      from by decide]
    norm_num [staircase, min_def]
  rw [hss] at hsm
  have hkw : calculate_keyword_match (JobMatcher.init [str "python"] [])
      (extract_job_text ⟨some (str "Python Developer"), some [], some [], some []⟩) = 0 :=
    calculate_keyword_match_of_empty (by decide) _
  have hex : calculate_experience_match
      (⟨some (str "Python Developer"), some [], some [], some []⟩ : Job) 0 = 1 :=
    calculate_experience_match_of_no_requirement (by decide)
  have htb : title_bonus_calc (JobMatcher.init [str "python"] [])
      (lowerStr ((⟨some (str "Python Developer"), some [], some [], some []⟩ : Job).title.getD [])) =
      0.1 := by
    rw [title_bonus_calc_eval (by decide) (show _ = 1 from by decide)
      (show _ = 0 from by decide)]
    norm_num [min_def]
  rw [match_job_eval hsm hkw hex htb]
  norm_num [skill_count_bonus_calc, min_def, max_def]

/-- C2. If some profile skill occurs verbatim as a substring of the posting
text (so the matched list is non-empty), or more generally if the matched
list is non-empty or the keyword score is positive, then the combined score
is at least 0.20. -/
theorem spec_C2_floor_guarantee (m : JobMatcher) (job : Job) (cv : Nat)
    (h : (∃ s ∈ m.cv_skills, containsSub s (extract_job_text job) = true) ∨
      (match_job m job cv).2 ≠ [] ∨
      0 < calculate_keyword_match m (extract_job_text job)) :
    0.2 ≤ (match_job m job cv).1 := by
  apply match_job_floor
  rcases h with ⟨s, hs, hc⟩ | h | h
  · exact Or.inl (List.ne_nil_of_mem (exact_match_mem hs hc))
  · rw [match_job_snd] at h
    exact Or.inl h
  · exact Or.inr h

/-- Witness for C2 at a concrete profile and posting. -/
theorem spec_C2_floor_guarantee_witness :
    0.2 ≤ (match_job (JobMatcher.init [str "python"] [])
      ⟨some (str "Python Developer"), some [], some [], some []⟩ 0).1 :=
  spec_C2_floor_guarantee _ _ _ (Or.inl ⟨str "python", by decide, by decide⟩)

/-- C3 counterexample. On the spec's concrete case (profile skill "python",
no keywords, zero experience years; posting titled "Python Developer" with
the other fields empty) the combiner does not return 0.46: the spec's
arithmetic omits the experience contribution (no stated requirement gives
experience score 1.0, contributing 0.15 to the base). -/
theorem spec_C3_concrete_case_counterexample :
    (match_job (JobMatcher.init [str "python"] [])
      ⟨some (str "Python Developer"), some [], some [], some []⟩ 0).1 ≠ 0.46 := by
  rw [match_job_python_dev]
  norm_num

/-- C3 amended. On the spec's concrete case the matched skills are exactly
["python"] and the score is exactly 0.61: skill score 0.35 (staircase 0.30
plus high-value bonus 0.05), keyword score 0, experience score 1.0,
title bonus 0.10, any-match bonus 0.15, skill-count bonus 0,
base = 0.35 × 0.6 + 1.0 × 0.15 = 0.36, raw = 0.36 + 0.10 + 0.15 = 0.61,
floor and boost not binding. -/
theorem spec_C3_concrete_case_amended :
    match_job (JobMatcher.init [str "python"] [])
      ⟨some (str "Python Developer"), some [], some [], some []⟩ 0 =
      (0.61, [str "python"]) :=
  match_job_python_dev

/-- C10. If the profile's skill set contains the empty string then, for
every posting (including one with every field empty), the empty string is
reported among the matched skills — the empty string is a substring of any
text, and the length guard applies only to the fuzzy token fallback — so
the floor rule forces a score of at least 0.2. -/
theorem spec_C10_empty_string_skill (m : JobMatcher) (job : Job) (cv : Nat)
    (h : [] ∈ m.cv_skills) :
    [] ∈ (match_job m job cv).2 ∧ 0.2 ≤ (match_job m job cv).1 := by
  have hmem : ([] : Str) ∈ (calculate_skill_match m (extract_job_text job)).2 :=
    exact_match_mem h (containsSub_nil_left _)
  constructor
  · rw [match_job_snd]
    exact hmem
  · exact match_job_floor (Or.inl (List.ne_nil_of_mem hmem))

/-- Witness for C10 at a profile containing the empty-string skill and a
posting with every field absent. -/
theorem spec_C10_empty_string_skill_witness :
    [] ∈ (match_job (JobMatcher.init [str ""] []) ⟨none, none, none, none⟩ 0).2 ∧
      0.2 ≤ (match_job (JobMatcher.init [str ""] []) ⟨none, none, none, none⟩ 0).1 :=
  spec_C10_empty_string_skill _ _ _ (by decide)

/-- C4. With empty skills and empty keywords the combiner returns an empty
matched list and a score of exactly the experience score times 0.15 (the
clamp is vacuous since the experience score is at most 1); when the posting
states no experience requirement the score is 0.15. -/
theorem spec_C4_empty_profile (m : JobMatcher) (job : Job) (cv : Nat)
    (hs : m.cv_skills = []) (hk : m.cv_keywords = []) :
    (match_job m job cv).2 = [] ∧
    (match_job m job cv).1 = calculate_experience_match job cv * 0.15 ∧
    (requiredYearsOf (extract_job_text job) = 0 → (match_job m job cv).1 = 0.15) := by
  have hsm := calculate_skill_match_of_empty hs (extract_job_text job)
  have hkw := calculate_keyword_match_of_empty hk (extract_job_text job)
  have htb := title_bonus_calc_of_empty hs hk (lowerStr (job.title.getD []))
  have heval := match_job_eval hsm hkw (Eq.refl (calculate_experience_match job cv)) htb
  have hscb : skill_count_bonus_calc ([] : List Str) = 0.0 := by
    norm_num [skill_count_bonus_calc]
  have hcond : ¬ (([] : List Str).length > 0 ∨ (0:ℚ) < 0) := by norm_num
  have hboost : ¬ ((0:ℚ) > 0.2 ∧ ([] : List Str).length ≥ 2) := by norm_num
  have hfst : (match_job m job cv).1 = calculate_experience_match job cv * 0.15 := by
    rw [heval]
    dsimp only
    simp only [if_neg hboost, if_neg hcond, hscb]
    have h1 : (0:ℚ) * 0.6 + 0 * 0.2 + calculate_experience_match job cv * 0.15 + 0 +
        0.0 + 0.0 = calculate_experience_match job cv * 0.15 := by ring
    rw [h1]
    exact min_eq_right (by
      have := calculate_experience_match_le_one job cv
      linarith)
  refine ⟨by rw [heval], hfst, fun hr => ?_⟩
  rw [hfst, calculate_experience_match_of_no_requirement hr]
  norm_num

/-- Witness for C4 at the empty profile and an empty posting. -/
theorem spec_C4_empty_profile_witness :
    (match_job (JobMatcher.init [] []) ⟨none, none, none, none⟩ 0).2 = [] ∧
      (match_job (JobMatcher.init [] []) ⟨none, none, none, none⟩ 0).1 = 0.15 := by
  obtain ⟨h1, _, h3⟩ := spec_C4_empty_profile (JobMatcher.init [] [])
    ⟨none, none, none, none⟩ 0 (by decide) (by decide)
  exact ⟨h1, h3 (by decide)⟩

/-- C5 counterexample. Two postings that differ only in their company field
receive different experience scores (the extraction scans the company text
too): with candidate years 2, an all-empty posting scores 1 while the same
posting with company "minimum 10 years" scores 0.3. -/
theorem spec_C5_company_counterexample :
    calculate_experience_match ⟨some [], some [], some [], some []⟩ 2 = 1 ∧
    calculate_experience_match ⟨some [], some (str "minimum 10 years"), some [], some []⟩ 2 = 0.3 ∧
    (⟨some [], some [], some [], some []⟩ : Job).title =
      (⟨some [], some (str "minimum 10 years"), some [], some []⟩ : Job).title ∧
    (⟨some [], some [], some [], some []⟩ : Job).snippet =
      (⟨some [], some (str "minimum 10 years"), some [], some []⟩ : Job).snippet ∧
    (⟨some [], some [], some [], some []⟩ : Job).full_description =
      (⟨some [], some (str "minimum 10 years"), some [], some []⟩ : Job).full_description ∧
    (1 : ℚ) ≠ 0.3 := by
  refine ⟨calculate_experience_match_of_no_requirement (by decide), ?_, rfl, rfl, rfl,
    by norm_num⟩
  have h10 : requiredYearsOf (extract_job_text
      ⟨some [], some (str "minimum 10 years"), some [], some []⟩) = 10 := by decide
  unfold calculate_experience_match
  dsimp only
  rw [h10]
  norm_num

/-- C5 amended. The experience signal depends only on the extracted posting
text — the lower-cased concatenation of title, company, snippet and full
description — together with the candidate years; the company field is part
of that concatenation. -/
theorem spec_C5_experience_depends_on_extracted_text (j1 j2 : Job) (cv : Nat)
    (h : extract_job_text j1 = extract_job_text j2) :
    calculate_experience_match j1 cv = calculate_experience_match j2 cv := by
  unfold calculate_experience_match
  rw [h]

/-- Witness for the amended C5: absent fields and present-but-empty fields
extract to the same text, hence the same experience score. -/
theorem spec_C5_experience_depends_on_extracted_text_witness :
    calculate_experience_match ⟨some (str "x"), none, none, none⟩ 0 =
      calculate_experience_match ⟨some (str "x"), some [], some [], some []⟩ 0 :=
  spec_C5_experience_depends_on_extracted_text _ _ 0 (by decide)

/-- C6. The experience signal returns 1 when no requirement is extracted,
1 when the candidate meets the requirement, 0.7 when the candidate has at
least 70 percent of the requirement but less than all of it, and 0.3
otherwise; concretely, "5 years of experience required" against candidate
years 2 yields 0.3. -/
theorem spec_C6_experience_gating (job : Job) (cv : Nat) :
    (requiredYearsOf (extract_job_text job) = 0 →
      calculate_experience_match job cv = 1) ∧
    (requiredYearsOf (extract_job_text job) ≤ cv →
      calculate_experience_match job cv = 1) ∧
    (cv < requiredYearsOf (extract_job_text job) →
      (requiredYearsOf (extract_job_text job) : ℚ) * 0.7 ≤ (cv : ℚ) →
      calculate_experience_match job cv = 0.7) ∧
    ((cv : ℚ) < (requiredYearsOf (extract_job_text job) : ℚ) * 0.7 →
      calculate_experience_match job cv = 0.3) ∧
    calculate_experience_match
      ⟨some (str "5 years of experience required"), none, none, none⟩ 2 = 0.3 := by
  refine ⟨fun h => calculate_experience_match_of_no_requirement h, ?_, ?_, ?_, ?_⟩
  · intro h
    unfold calculate_experience_match
    dsimp only
    rcases Nat.eq_zero_or_pos (requiredYearsOf (extract_job_text job)) with h0 | h0
    · rw [if_pos h0]
      norm_num
    · rw [if_neg (by omega : ¬ requiredYearsOf (extract_job_text job) = 0),
        if_pos (show cv ≥ requiredYearsOf (extract_job_text job) from h)]
      norm_num
  · intro h1 h2
    unfold calculate_experience_match
    dsimp only
    rw [if_neg (by omega : ¬ requiredYearsOf (extract_job_text job) = 0),
      if_neg (by omega : ¬ cv ≥ requiredYearsOf (extract_job_text job)),
      if_pos h2]
  · intro h
    have hr0 : ¬ requiredYearsOf (extract_job_text job) = 0 := by
      intro h0
      rw [h0] at h
      norm_num at h
      have h1 : (0:ℚ) ≤ (cv:ℚ) := by positivity
      linarith
    have hcv : ¬ cv ≥ requiredYearsOf (extract_job_text job) := by
      intro hge
      have hc : ((requiredYearsOf (extract_job_text job) : ℚ)) ≤ (cv : ℚ) := by
        exact_mod_cast hge
      have h0 : (0:ℚ) ≤ (requiredYearsOf (extract_job_text job) : ℚ) := by positivity
      linarith
    have hq : ¬ ((cv:ℚ) ≥ (requiredYearsOf (extract_job_text job) : ℚ) * 0.7) :=
      not_le.mpr h
    unfold calculate_experience_match
    dsimp only
    rw [if_neg hr0, if_neg hcv, if_neg hq]
  · have h5 : requiredYearsOf (extract_job_text
        ⟨some (str "5 years of experience required"), none, none, none⟩) = 5 := by
      decide
    unfold calculate_experience_match
    dsimp only
    rw [h5]
    norm_num

/-- Witness for C6: the concrete 5-versus-2 gating and the no-requirement
case, obtained from the theorem at concrete inputs. -/
theorem spec_C6_experience_gating_witness :
    calculate_experience_match
      ⟨some (str "5 years of experience required"), none, none, none⟩ 2 = 0.3 ∧
    calculate_experience_match ⟨none, none, none, none⟩ 7 = 1 := by
  have h5 : requiredYearsOf (extract_job_text
      ⟨some (str "5 years of experience required"), none, none, none⟩) = 5 := by decide
  refine ⟨(spec_C6_experience_gating
      ⟨some (str "5 years of experience required"), none, none, none⟩ 2).2.2.2.1
      (by rw [h5]; norm_num), ?_⟩
  exact (spec_C6_experience_gating ⟨none, none, none, none⟩ 7).1 (by decide)

/-- A duplicate-free list contained in another list is no longer than it. -/
theorem nodup_length_le_of_subset {α : Type} [DecidableEq α] {S T : List α}
    (hS : S.Nodup) (hsub : S ⊆ T) : S.length ≤ T.length :=
  calc S.length = S.toFinset.card := (List.toFinset_card_of_nodup hS).symm
    _ ≤ T.toFinset.card := Finset.card_le_card fun x hx =>
        List.mem_toFinset.mpr (hsub (List.mem_toFinset.mp hx))
    _ ≤ T.length := T.toFinset_card_le

/-- C7. The skill staircase score is monotone in the matched-skill set:
a subset (both duplicate-free, as match lists over set-typed skills are)
never scores higher than its superset — the staircase never decreases in
the match count and the capped high-value bonus never decreases in the
high-value count. -/
theorem spec_C7_skill_score_monotone (S T : List Str) (hS : S.Nodup) (hT : T.Nodup)
    (hsub : S ⊆ T) : skill_match_score S ≤ skill_match_score T := by
  rw [skill_match_score_eq, skill_match_score_eq]
  have hn : S.length ≤ T.length := nodup_length_le_of_subset hS hsub
  have hh : (S.countP fun s => decide (s ∈ high_value_skills)) ≤
      (T.countP fun s => decide (s ∈ high_value_skills)) := by
    rw [List.countP_eq_length_filter, List.countP_eq_length_filter]
    refine nodup_length_le_of_subset (hS.filter _) fun x hx => ?_
    rw [List.mem_filter] at hx ⊢
    exact ⟨hsub hx.1, hx.2⟩
  refine min_le_min le_rfl (add_le_add (staircase_mono hn) (min_le_min le_rfl ?_))
  exact mul_le_mul_of_nonneg_right (by exact_mod_cast hh) (by norm_num)

/-- Witness for C7 on two concrete matched sets. -/
theorem spec_C7_skill_score_monotone_witness :
    skill_match_score [str "python"] ≤ skill_match_score [str "python", str "aws"] :=
  spec_C7_skill_score_monotone _ _ (by decide) (by decide) (by decide)

/-- C8. The fuzzy matcher resolves the k8s/kubernetes synonym pair in both
directions: any haystack containing "kubernetes" makes the skill "k8s"
present, and any haystack containing "k8s" makes the skill "kubernetes"
present (both via the synonym-table lookup, the matcher's first layer). -/
theorem spec_C8_k8s_kubernetes_synonyms (hay : Str) :
    (containsSub (str "kubernetes") hay = true →
      fuzzy_match_skill (str "k8s") hay = true) ∧
    (containsSub (str "k8s") hay = true →
      fuzzy_match_skill (str "kubernetes") hay = true) := by
  constructor
  · intro hc
    unfold fuzzy_match_skill
    rw [show List.lookup (str "k8s") variations = some (str "kubernetes") from by decide]
    dsimp only
    rw [hc]
    rfl
  · intro hc
    unfold fuzzy_match_skill
    rw [show List.lookup (str "kubernetes") variations = some (str "k8s") from by decide]
    dsimp only
    rw [hc]
    rfl

/-- Witness for C8 on concrete haystacks in both directions. -/
theorem spec_C8_k8s_kubernetes_synonyms_witness :
    fuzzy_match_skill (str "k8s") (str "we use kubernetes daily") = true ∧
    fuzzy_match_skill (str "kubernetes") (str "k8s experience") = true :=
  ⟨(spec_C8_k8s_kubernetes_synonyms _).1 (by decide),
   (spec_C8_k8s_kubernetes_synonyms _).2 (by decide)⟩

/-- C9 counterexample. The matcher's constructor does not strip leading or
trailing punctuation and whitespace: the supplied skill " Python " is stored
as " python " (only lower-cased), not as the spec-modelled normalization
"python". -/
theorem spec_C9_normalizer_counterexample :
    (JobMatcher.init [str " Python "] []).cv_skills = [str " python "] ∧
    (JobMatcher.init [str " Python "] []).cv_skills ≠
      [normalizeSpec (str " Python ")] := by
  exact ⟨by decide, by decide⟩

/-- C9 amended. The normalization applied to profile terms before matching
is lower-casing only: every stored skill is exactly the lower-casing of some
supplied term — no punctuation or whitespace stripping, no stemming, no
synonym rewriting. -/
theorem spec_C9_normalizer_lowercases_only (skills keywords : List Str) (s : Str)
    (h : s ∈ (JobMatcher.init skills keywords).cv_skills) :
    ∃ t ∈ skills, s = lowerStr t := by
  unfold JobMatcher.init at h
  dsimp only at h
  rw [List.mem_dedup] at h
  obtain ⟨t, ht, rfl⟩ := List.mem_map.mp h
  exact ⟨t, ht, rfl⟩

/-- Witness for the amended C9 at a concrete skill list. -/
theorem spec_C9_normalizer_lowercases_only_witness :
    ∃ t ∈ [str " Python "], str " python " = lowerStr t :=
  spec_C9_normalizer_lowercases_only [str " Python "] [] (str " python ") (by decide)
